import Mathlib

/-!
# IBC 02-client query utilities (`x/ibc/02-client/client/utils/utils.go`)

A shallow embedding of the five query helpers of the file:
`QueryAllClientStates`, `QueryClientState`, `QueryConsensusState`,
`QueryTendermintHeader` and `QueryNodeConsensusState`.

Modelling conventions.

* The remote node is a state machine over an arbitrary world type `W`: every
  round trip takes the current world and returns a response together with the
  next world, so a node whose head advances between two calls is an ordinary
  inhabitant of the model.
* Every helper returns an `Out`: the Go return tuple, the world after the
  call, and the list of round trips it issued, in order.
* A collaborator's `(result, error)` pair is an `Except`: the source reads the
  result only after checking `err == nil`.
* The Go return tuple of a helper is kept as a tuple whose last component is
  `Option GoError` (`none` is `nil`), so the zero values returned next to an
  error are visible. The Go zero value of a type is its `Inhabited` default;
  a nil slice is the empty list.
* `int` and `int64` are `Int`, `uint64` is `Nat`; the helpers do no arithmetic
  on them.
* Functions, constants and types that the file imports from other packages
  (the codec, the key builders, the response constructors, the Tendermint
  constructors) are parameters, bundled in `Codec`, `ClientPkg` and `TmPkg`.
* A panic is modelled too. The two node helpers return an `Option` of their Go
  return tuple, and `none` says that the helper panicked and returned
  nothing: `NewValidatorSet` panics on a validator list it rejects (`none`),
  and the header of a commit is embedded by pointer, so reading one of its
  fields panics when the pointer is nil.
-/

namespace IBCClientUtils

/-- Byte slices. -/
abbrev Bytes := List UInt8

/-- Go error values: one produced by a collaborator, or one built by
`fmt.Errorf(format, err)` with a `%w` verb, which wraps `err`. -/
inductive GoError where
  | mk (msg : String)
  | wrap (format : String) (err : GoError)
  deriving DecidableEq, Repr

/-- The `abci.RequestQuery` struct; a field the source leaves out of a
composite literal has its zero value. -/
structure RequestQuery where
  Data : Bytes := []
  Path : String := ""
  Height : Int := 0
  Prove : Bool := false
  deriving DecidableEq, Repr

/-- The fields of `abci.ResponseQuery` that the source reads; `P` is
`merkle.Proof` and `Proof` is a pointer to it. -/
structure ResponseQuery (P : Type) where
  Value : Bytes
  Proof : Option P
  Height : Int
  deriving DecidableEq, Repr

/-- The `Response` member of the result of `ABCIInfo`. -/
structure ResponseInfo where
  LastBlockHeight : Int
  deriving DecidableEq, Repr

/-- The result of `ABCIInfo`. -/
structure ResultABCIInfo where
  Response : ResponseInfo
  deriving DecidableEq, Repr

/-- The fields of the Tendermint block `Header` that the source reads. -/
structure TmHeader (T : Type) where
  Time : T
  AppHash : Bytes
  deriving DecidableEq, Repr

/-- Modelled from the spec: the Tendermint `SignedHeader` declaration is not in
src/; the spec describes it as a block header plus the validator signatures
committing to it. The header is embedded by pointer, and `none` is the nil
pointer; `Commit` stands for the signatures. -/
structure SignedHeader (T R : Type) where
  Header : Option (TmHeader T)
  Commit : R
  deriving DecidableEq, Repr

/-- The result of `Commit`, which embeds a `SignedHeader`. -/
structure ResultCommit (T R : Type) where
  SignedHeader : SignedHeader T R
  CanonicalCommit : Bool
  deriving DecidableEq, Repr

/-- Modelled from the spec: the Tendermint `ResultValidators` declaration is
not in src/; the spec gives the validators round trip the result
`(validators, totalCount)`. `Val` is a validator. -/
structure ResultValidators (Val : Type) where
  BlockHeight : Int
  Validators : List Val
  Total : Int
  deriving DecidableEq, Repr

/-- The `ibctmtypes.Header` composite built by `QueryTendermintHeader`. -/
structure Header (T R VS : Type) where
  SignedHeader : SignedHeader T R
  ValidatorSet : VS
  deriving DecidableEq, Repr

/-- The `ibctmtypes.ConsensusState` composite built by
`QueryNodeConsensusState`. -/
structure ConsensusState (T Root VS : Type) where
  Timestamp : T
  Root : Root
  ValidatorSet : VS
  deriving DecidableEq, Repr

/-- The Go zero value `SignedHeader{}`. -/
def SignedHeader.zero {T R : Type} [Inhabited R] : SignedHeader T R :=
  { Header := none, Commit := default }

/-- The Go zero value `ibctmtypes.Header{}`. -/
def Header.zero {T R VS : Type} [Inhabited R] [Inhabited VS] : Header T R VS :=
  { SignedHeader := SignedHeader.zero, ValidatorSet := default }

/-- The Go zero value `ibctmtypes.ConsensusState{}`. -/
def ConsensusState.zero {T Root VS : Type} [Inhabited T] [Inhabited Root] [Inhabited VS] :
    ConsensusState T Root VS :=
  { Timestamp := default, Root := default, ValidatorSet := default }

/-- A round trip issued by a helper, with its arguments. -/
inductive Call where
  | QueryWithData (route : String) (bz : Bytes)
  | QueryABCI (req : RequestQuery)
  | ABCIInfo
  | Commit (height : Int)
  | Validators (height : Int) (page : Int) (perPage : Int)
  deriving DecidableEq, Repr

/-- What a helper produces: its Go return tuple, the world after it, and the
round trips it issued, oldest first. -/
structure Out (W α : Type) where
  ret : α
  world : W
  calls : List Call

/-- The methods of `cliCtx.Codec` used by the source, one per target type. -/
structure Codec (CS ConS Params : Type) where
  MarshalJSON : Params → Except GoError Bytes
  UnmarshalJSON : Bytes → Except GoError (List CS)
  UnmarshalClientState : Bytes → Except GoError CS
  UnmarshalConsensusState : Bytes → Except GoError ConS

/-- The RPC client returned by `cliCtx.GetNode()`. -/
structure Node (W T R Val : Type) where
  ABCIInfo : W → Except GoError ResultABCIInfo × W
  Commit : W → Int → Except GoError (ResultCommit T R) × W
  Validators : W → Int → Int → Int → Except GoError (ResultValidators Val) × W

/-- The members of `context.CLIContext` used by the source. -/
structure CLIContext (W CS ConS Params P T R Val : Type) where
  Codec : Codec CS ConS Params
  GetNode : Except GoError (Node W T R Val)
  QueryWithData : W → String → Bytes → Except GoError (Bytes × Int) × W
  QueryABCI : W → RequestQuery → Except GoError (ResponseQuery P) × W

/-- The names the source imports from `02-client/types` and `ibc/types`:
constants, key builders and response constructors. `SR` is `StateResponse`,
`CSR` is `ConsensusStateResponse`. -/
structure ClientPkg (CS ConS Params P SR CSR : Type) where
  NewQueryAllClientsParams : Int → Int → Params
  QuerierRoute : String
  QueryAllClients : String
  KeyClientState : String → Bytes
  KeyConsensusState : String → Nat → Bytes
  NewClientStateResponse : String → CS → Option P → Int → SR
  NewConsensusStateResponse : String → ConS → Option P → Int → CSR

/-- The constructors the source imports from Tendermint and from
`23-commitment/types`. `NewValidatorSet` panics on a validator list it
rejects, and `none` is that panic. -/
structure TmPkg (Val VS Root : Type) where
  NewValidatorSet : List Val → Option VS
  NewMerkleRoot : Bytes → Root

section Helpers

variable {W CS ConS Params P SR CSR T R Val VS Root : Type}

/-- The route `fmt.Sprintf("custom/%s/%s/%s", "ibc", QuerierRoute, QueryAllClients)`. -/
def allClientsRoute (pkg : ClientPkg CS ConS Params P SR CSR) : String :=
  "custom/" ++ "ibc" ++ "/" ++ pkg.QuerierRoute ++ "/" ++ pkg.QueryAllClients

/-- The request built by `QueryClientState`. -/
def clientStateReq (pkg : ClientPkg CS ConS Params P SR CSR) (clientID : String)
    (prove : Bool) : RequestQuery :=
  { Path := "store/ibc/key", Data := pkg.KeyClientState clientID, Prove := prove }

/-- The request built by `QueryConsensusState`. -/
def consensusStateReq (pkg : ClientPkg CS ConS Params P SR CSR) (clientID : String)
    (height : Nat) (prove : Bool) : RequestQuery :=
  { Path := "store/ibc/key", Data := pkg.KeyConsensusState clientID height, Prove := prove }

/-- Source `QueryAllClientStates`: returns all the light client states; it does
not return any merkle proof. -/
def QueryAllClientStates (pkg : ClientPkg CS ConS Params P SR CSR)
    (cliCtx : CLIContext W CS ConS Params P T R Val) (page limit : Int) (w : W) :
    Out W (List CS × Int × Option GoError) :=
  let params := pkg.NewQueryAllClientsParams page limit
  match cliCtx.Codec.MarshalJSON params with
  | .error err =>
    { ret := ([], 0, some (.wrap "failed to marshal query params: %w" err)),
      world := w, calls := [] }
  | .ok bz =>
    let route := allClientsRoute pkg
    let q := cliCtx.QueryWithData w route bz
    match q.1 with
    | .error err =>
      { ret := ([], 0, some err), world := q.2, calls := [.QueryWithData route bz] }
    | .ok (res, height) =>
      match cliCtx.Codec.UnmarshalJSON res with
      | .error err =>
        { ret := ([], 0, some (.wrap "failed to unmarshal light clients: %w" err)),
          world := q.2, calls := [.QueryWithData route bz] }
      | .ok clients =>
        { ret := (clients, height, none), world := q.2, calls := [.QueryWithData route bz] }

/-- Source `QueryClientState`: queries the store to get the light client state and a
merkle proof. -/
def QueryClientState [Inhabited SR] (pkg : ClientPkg CS ConS Params P SR CSR)
    (cliCtx : CLIContext W CS ConS Params P T R Val) (clientID : String) (prove : Bool)
    (w : W) : Out W (SR × Option GoError) :=
  let req := clientStateReq pkg clientID prove
  let q := cliCtx.QueryABCI w req
  match q.1 with
  | .error err => { ret := (default, some err), world := q.2, calls := [.QueryABCI req] }
  | .ok res =>
    match cliCtx.Codec.UnmarshalClientState res.Value with
    | .error err => { ret := (default, some err), world := q.2, calls := [.QueryABCI req] }
    | .ok clientState =>
      let clientStateRes := pkg.NewClientStateResponse clientID clientState res.Proof res.Height
      { ret := (clientStateRes, none), world := q.2, calls := [.QueryABCI req] }

/-- Source `QueryConsensusState`: queries the store to get the consensus state and a
merkle proof. -/
def QueryConsensusState [Inhabited CSR] (pkg : ClientPkg CS ConS Params P SR CSR)
    (cliCtx : CLIContext W CS ConS Params P T R Val) (clientID : String) (height : Nat)
    (prove : Bool) (w : W) : Out W (CSR × Option GoError) :=
  let conStateRes : CSR := default
  let req := consensusStateReq pkg clientID height prove
  let q := cliCtx.QueryABCI w req
  match q.1 with
  | .error err => { ret := (conStateRes, some err), world := q.2, calls := [.QueryABCI req] }
  | .ok res =>
    match cliCtx.Codec.UnmarshalConsensusState res.Value with
    | .error err => { ret := (conStateRes, some err), world := q.2, calls := [.QueryABCI req] }
    | .ok cs =>
      { ret := (pkg.NewConsensusStateResponse clientID cs res.Proof res.Height, none),
        world := q.2, calls := [.QueryABCI req] }

/-- Source `QueryTendermintHeader`: takes a client context and returns the
appropriate tendermint header. The result is `none` when the helper panics,
which happens only inside `NewValidatorSet`. -/
def QueryTendermintHeader [Inhabited R] [Inhabited VS] (tm : TmPkg Val VS Root)
    (cliCtx : CLIContext W CS ConS Params P T R Val) (w : W) :
    Out W (Option (Header T R VS × Int × Option GoError)) :=
  match cliCtx.GetNode with
  | .error err => { ret := some (Header.zero, 0, some err), world := w, calls := [] }
  | .ok node =>
    let i := node.ABCIInfo w
    match i.1 with
    | .error err =>
      { ret := some (Header.zero, 0, some err), world := i.2, calls := [.ABCIInfo] }
    | .ok info =>
      let height := info.Response.LastBlockHeight
      let c := node.Commit i.2 height
      match c.1 with
      | .error err =>
        { ret := some (Header.zero, 0, some err), world := c.2,
          calls := [.ABCIInfo, .Commit height] }
      | .ok commit =>
        let v := node.Validators c.2 height 0 10000
        match v.1 with
        | .error err =>
          { ret := some (Header.zero, 0, some err), world := v.2,
            calls := [.ABCIInfo, .Commit height, .Validators height 0 10000] }
        | .ok validators =>
          match tm.NewValidatorSet validators.Validators with
          | none =>
            { ret := none, world := v.2,
              calls := [.ABCIInfo, .Commit height, .Validators height 0 10000] }
          | some vs =>
            let header : Header T R VS :=
              { SignedHeader := commit.SignedHeader, ValidatorSet := vs }
            { ret := some (header, height, none), world := v.2,
              calls := [.ABCIInfo, .Commit height, .Validators height 0 10000] }

/-- Source `QueryNodeConsensusState`: takes a client context and returns the
appropriate tendermint consensus state. The result is `none` when the helper
panics: `commit.Time` and `commit.AppHash` are read through the header
pointer of the commit, and `NewValidatorSet` may reject the validators. -/
def QueryNodeConsensusState [Inhabited T] [Inhabited Root] [Inhabited VS]
    (tm : TmPkg Val VS Root) (cliCtx : CLIContext W CS ConS Params P T R Val) (w : W) :
    Out W (Option (ConsensusState T Root VS × Int × Option GoError)) :=
  match cliCtx.GetNode with
  | .error err => { ret := some (ConsensusState.zero, 0, some err), world := w, calls := [] }
  | .ok node =>
    let i := node.ABCIInfo w
    match i.1 with
    | .error err =>
      { ret := some (ConsensusState.zero, 0, some err), world := i.2, calls := [.ABCIInfo] }
    | .ok info =>
      let height := info.Response.LastBlockHeight
      let c := node.Commit i.2 height
      match c.1 with
      | .error err =>
        { ret := some (ConsensusState.zero, 0, some err), world := c.2,
          calls := [.ABCIInfo, .Commit height] }
      | .ok commit =>
        let v := node.Validators c.2 height 0 10000
        match v.1 with
        | .error err =>
          { ret := some (ConsensusState.zero, 0, some err), world := v.2,
            calls := [.ABCIInfo, .Commit height, .Validators height 0 10000] }
        | .ok validators =>
          match commit.SignedHeader.Header with
          | none =>
            { ret := none, world := v.2,
              calls := [.ABCIInfo, .Commit height, .Validators height 0 10000] }
          | some hd =>
            match tm.NewValidatorSet validators.Validators with
            | none =>
              { ret := none, world := v.2,
                calls := [.ABCIInfo, .Commit height, .Validators height 0 10000] }
            | some vs =>
              let state : ConsensusState T Root VS :=
                { Timestamp := hd.Time,
                  Root := tm.NewMerkleRoot hd.AppHash,
                  ValidatorSet := vs }
              { ret := some (state, height, none), world := v.2,
                calls := [.ABCIInfo, .Commit height, .Validators height 0 10000] }

end Helpers

/-! ## Concrete collaborators

A small node used to evaluate the helpers: the world is the head height, and
every round trip advances it by one. -/

/-- A codec over byte-string states: a state is its own encoding, the list
encoding holds one byte per client, and empty input is rejected the way the
binary length-prefixed decoder rejects it. -/
def demoCodec : Codec Bytes Bytes (Int × Int) where
  MarshalJSON := fun p => .ok [p.1.toNat.toUInt8, p.2.toNat.toUInt8]
  UnmarshalJSON := fun bz => .ok (bz.map fun b => [b])
  UnmarshalClientState := fun bz =>
    if bz = [] then .error (.mk "UnmarshalBinaryLengthPrefixed cannot decode empty bytes")
    else .ok bz
  UnmarshalConsensusState := fun bz =>
    if bz = [] then .error (.mk "UnmarshalBinaryLengthPrefixed cannot decode empty bytes")
    else .ok bz

/-- Key builders, constants and response constructors for the demo; a response
is the tuple of the constructor arguments. -/
def demoPkg : ClientPkg Bytes Bytes (Int × Int) Nat
    (String × Bytes × Option Nat × Int) (String × Bytes × Option Nat × Int) where
  NewQueryAllClientsParams := fun page limit => (page, limit)
  QuerierRoute := "client"
  QueryAllClients := "client_states"
  KeyClientState := fun clientID => [0, clientID.length.toUInt8]
  KeyConsensusState := fun clientID height => [1, clientID.length.toUInt8, height.toUInt8]
  NewClientStateResponse := fun clientID cs proof height => (clientID, cs, proof, height)
  NewConsensusStateResponse := fun clientID cs proof height => (clientID, cs, proof, height)

/-- Tendermint constructors for the demo: a validator is its voting power, a
validator set is the list with its total power, a root is its hash. A list
with a validator of power zero is rejected. -/
def demoTm : TmPkg Nat (List Nat × Nat) Bytes where
  NewValidatorSet := fun vals => if vals.contains 0 then none else some (vals, vals.sum)
  NewMerkleRoot := fun hash => hash

/-- A node that answers every round trip. Its validators response carries two
validators and reports a total of 20000, so it is truncated. -/
def demoNode : Node Nat Int Unit Nat where
  ABCIInfo := fun w => (.ok { Response := { LastBlockHeight := w } }, w + 1)
  Commit := fun w h =>
    (.ok { SignedHeader := { Header := some { Time := 1000 + h, AppHash := [171] },
                             Commit := () },
           CanonicalCommit := true }, w + 1)
  Validators := fun w h _ _ =>
    (.ok { BlockHeight := h, Validators := [11, 22], Total := 20000 }, w + 1)

/-- A client context over `demoNode`. The store holds a value only under keys
whose identifier is 15 characters long (such as `07-tendermint-0`); the
all-clients query always answers with three clients. -/
def demoCtx : CLIContext Nat Bytes Bytes (Int × Int) Nat Int Unit Nat where
  Codec := demoCodec
  GetNode := .ok demoNode
  QueryWithData := fun w _ _ => (.ok ([1, 2, 3], w), w + 1)
  QueryABCI := fun w req =>
    (.ok { Value := if req.Data.get? 1 = some 15 then [42] else [],
           Proof := if req.Prove then some 5 else none,
           Height := w }, w + 1)

/-- A node whose round trip number `step` fails (0 is `ABCIInfo`, 1 is
`Commit`, 2 is `Validators`); the others answer like `demoNode`. -/
def failingNode (step : Nat) : Node Nat Int Unit Nat where
  ABCIInfo := fun w =>
    if step = 0 then (.error (.mk "connection refused"), w) else demoNode.ABCIInfo w
  Commit := fun w h =>
    if step = 1 then (.error (.mk "height not available"), w) else demoNode.Commit w h
  Validators := fun w h page perPage =>
    if step = 2 then (.error (.mk "timeout"), w)
    else demoNode.Validators w h page perPage

/-- The demo context over `failingNode step`. -/
def failingCtx (step : Nat) : CLIContext Nat Bytes Bytes (Int × Int) Nat Int Unit Nat :=
  { demoCtx with GetNode := .ok (failingNode step) }

/-- A node that answers like `demoNode`, except that the commit it returns has
a nil header. -/
def nilHeaderNode : Node Nat Int Unit Nat :=
  { demoNode with
    Commit := fun w _ =>
      (.ok { SignedHeader := { Header := none, Commit := () }, CanonicalCommit := true },
       w + 1) }

/-- The demo context over `nilHeaderNode`. -/
def nilHeaderCtx : CLIContext Nat Bytes Bytes (Int × Int) Nat Int Unit Nat :=
  { demoCtx with GetNode := .ok nilHeaderNode }

section Characterisation

variable {W CS ConS Params P SR CSR T R Val VS Root : Type}

/-- The outcome of `QueryTendermintHeader` when all three round trips succeed
and `NewValidatorSet` accepts the validators. -/
theorem QueryTendermintHeader_ok [Inhabited R] [Inhabited VS]
    (tm : TmPkg Val VS Root) (cliCtx : CLIContext W CS ConS Params P T R Val) (w w1 w2 w3 : W)
    (node : Node W T R Val) (info : ResultABCIInfo) (commit : ResultCommit T R)
    (validators : ResultValidators Val) (vs : VS)
    (hn : cliCtx.GetNode = .ok node)
    (hi : node.ABCIInfo w = (.ok info, w1))
    (hc : node.Commit w1 info.Response.LastBlockHeight = (.ok commit, w2))
    (hv : node.Validators w2 info.Response.LastBlockHeight 0 10000 = (.ok validators, w3))
    (hvs : tm.NewValidatorSet validators.Validators = some vs) :
    QueryTendermintHeader tm cliCtx w =
      { ret := some ({ SignedHeader := commit.SignedHeader, ValidatorSet := vs },
                     info.Response.LastBlockHeight, none),
        world := w3,
        calls := [.ABCIInfo, .Commit info.Response.LastBlockHeight,
                  .Validators info.Response.LastBlockHeight 0 10000] } := by
  simp [QueryTendermintHeader, hn, hi, hc, hv, hvs]

/-- A `QueryTendermintHeader` that returned without an error went through
three successful round trips and a successful `NewValidatorSet`. -/
theorem QueryTendermintHeader_inv [Inhabited R] [Inhabited VS]
    (tm : TmPkg Val VS Root) (cliCtx : CLIContext W CS ConS Params P T R Val) (w : W)
    (hdr : Header T R VS) (h : Int)
    (hok : (QueryTendermintHeader tm cliCtx w).ret = some (hdr, h, none)) :
    ∃ node info commit validators vs w1 w2 w3,
      cliCtx.GetNode = .ok node ∧
      node.ABCIInfo w = (.ok info, w1) ∧
      node.Commit w1 info.Response.LastBlockHeight = (.ok commit, w2) ∧
      node.Validators w2 info.Response.LastBlockHeight 0 10000 = (.ok validators, w3) ∧
      tm.NewValidatorSet validators.Validators = some vs := by
  unfold QueryTendermintHeader at hok
  cases hn : cliCtx.GetNode with
  | error e => simp [hn] at hok
  | ok node =>
    cases hi : (node.ABCIInfo w).1 with
    | error e => simp [hn, hi] at hok
    | ok info =>
      cases hc : (node.Commit (node.ABCIInfo w).2 info.Response.LastBlockHeight).1 with
      | error e => simp [hn, hi, hc] at hok
      | ok commit =>
        cases hv : (node.Validators
            (node.Commit (node.ABCIInfo w).2 info.Response.LastBlockHeight).2
            info.Response.LastBlockHeight 0 10000).1 with
        | error e => simp [hn, hi, hc, hv] at hok
        | ok validators =>
          cases hvs : tm.NewValidatorSet validators.Validators with
          | none => simp [hn, hi, hc, hv, hvs] at hok
          | some vs =>
            exact ⟨node, info, commit, validators, vs, _, _, _, rfl, Prod.ext hi rfl,
              Prod.ext hc rfl, Prod.ext hv rfl, hvs⟩

/-- The outcome of `QueryNodeConsensusState` when all three round trips
succeed, the commit carries a header and `NewValidatorSet` accepts the
validators. -/
theorem QueryNodeConsensusState_ok [Inhabited T] [Inhabited Root] [Inhabited VS]
    (tm : TmPkg Val VS Root) (cliCtx : CLIContext W CS ConS Params P T R Val) (w w1 w2 w3 : W)
    (node : Node W T R Val) (info : ResultABCIInfo) (commit : ResultCommit T R)
    (validators : ResultValidators Val) (hd : TmHeader T) (vs : VS)
    (hn : cliCtx.GetNode = .ok node)
    (hi : node.ABCIInfo w = (.ok info, w1))
    (hc : node.Commit w1 info.Response.LastBlockHeight = (.ok commit, w2))
    (hv : node.Validators w2 info.Response.LastBlockHeight 0 10000 = (.ok validators, w3))
    (hh : commit.SignedHeader.Header = some hd)
    (hvs : tm.NewValidatorSet validators.Validators = some vs) :
    QueryNodeConsensusState tm cliCtx w =
      { ret := some ({ Timestamp := hd.Time,
                       Root := tm.NewMerkleRoot hd.AppHash,
                       ValidatorSet := vs },
                     info.Response.LastBlockHeight, none),
        world := w3,
        calls := [.ABCIInfo, .Commit info.Response.LastBlockHeight,
                  .Validators info.Response.LastBlockHeight 0 10000] } := by
  simp [QueryNodeConsensusState, hn, hi, hc, hv, hh, hvs]

/-- A `QueryNodeConsensusState` that returned without an error went through
three successful round trips, found a header in the commit and had the
validators accepted. -/
theorem QueryNodeConsensusState_inv [Inhabited T] [Inhabited Root] [Inhabited VS]
    (tm : TmPkg Val VS Root) (cliCtx : CLIContext W CS ConS Params P T R Val) (w : W)
    (st : ConsensusState T Root VS) (h : Int)
    (hok : (QueryNodeConsensusState tm cliCtx w).ret = some (st, h, none)) :
    ∃ node info commit validators hd vs w1 w2 w3,
      cliCtx.GetNode = .ok node ∧
      node.ABCIInfo w = (.ok info, w1) ∧
      node.Commit w1 info.Response.LastBlockHeight = (.ok commit, w2) ∧
      node.Validators w2 info.Response.LastBlockHeight 0 10000 = (.ok validators, w3) ∧
      commit.SignedHeader.Header = some hd ∧
      tm.NewValidatorSet validators.Validators = some vs := by
  unfold QueryNodeConsensusState at hok
  cases hn : cliCtx.GetNode with
  | error e => simp [hn] at hok
  | ok node =>
    cases hi : (node.ABCIInfo w).1 with
    | error e => simp [hn, hi] at hok
    | ok info =>
      cases hc : (node.Commit (node.ABCIInfo w).2 info.Response.LastBlockHeight).1 with
      | error e => simp [hn, hi, hc] at hok
      | ok commit =>
        cases hv : (node.Validators
            (node.Commit (node.ABCIInfo w).2 info.Response.LastBlockHeight).2
            info.Response.LastBlockHeight 0 10000).1 with
        | error e => simp [hn, hi, hc, hv] at hok
        | ok validators =>
          cases hh : commit.SignedHeader.Header with
          | none => simp [hn, hi, hc, hv, hh] at hok
          | some hd =>
            cases hvs : tm.NewValidatorSet validators.Validators with
            | none => simp [hn, hi, hc, hv, hh, hvs] at hok
            | some vs =>
              exact ⟨node, info, commit, validators, hd, vs, _, _, _, rfl, Prod.ext hi rfl,
                Prod.ext hc rfl, Prod.ext hv rfl, hh, hvs⟩

/-- The two node helpers issue the same round trips and leave the same
world, whatever they return. -/
theorem node_helpers_same_calls [Inhabited T] [Inhabited R] [Inhabited Root] [Inhabited VS]
    (tm : TmPkg Val VS Root) (cliCtx : CLIContext W CS ConS Params P T R Val) (w : W) :
    (QueryNodeConsensusState tm cliCtx w).calls = (QueryTendermintHeader tm cliCtx w).calls ∧
    (QueryNodeConsensusState tm cliCtx w).world = (QueryTendermintHeader tm cliCtx w).world := by
  unfold QueryNodeConsensusState QueryTendermintHeader
  cases hn : cliCtx.GetNode with
  | error e => simp
  | ok node =>
    cases hi : (node.ABCIInfo w).1 with
    | error e => simp [hi]
    | ok info =>
      cases hc : (node.Commit (node.ABCIInfo w).2 info.Response.LastBlockHeight).1 with
      | error e => simp [hi, hc]
      | ok commit =>
        cases hv : (node.Validators
            (node.Commit (node.ABCIInfo w).2 info.Response.LastBlockHeight).2
            info.Response.LastBlockHeight 0 10000).1 with
        | error e => simp [hi, hc, hv]
        | ok validators =>
          cases hh : commit.SignedHeader.Header with
          | none =>
            cases hvs : tm.NewValidatorSet validators.Validators with
            | none => simp [hi, hc, hv, hh, hvs]
            | some vs => simp [hi, hc, hv, hh, hvs]
          | some hd =>
            cases hvs : tm.NewValidatorSet validators.Validators with
            | none => simp [hi, hc, hv, hh, hvs]
            | some vs => simp [hi, hc, hv, hh, hvs]

/-- How the return values of the two node helpers are related: the height and
error of a returning `QueryNodeConsensusState` are those of
`QueryTendermintHeader`; an error of `QueryTendermintHeader` is the error of
`QueryNodeConsensusState`; and a header returned without an error whose
commit carries a block header gives the consensus state derived from it. -/
theorem node_helpers_returns [Inhabited T] [Inhabited R] [Inhabited Root] [Inhabited VS]
    (tm : TmPkg Val VS Root) (cliCtx : CLIContext W CS ConS Params P T R Val) (w : W) :
    (∀ st h err, (QueryNodeConsensusState tm cliCtx w).ret = some (st, h, err) →
      ∃ hdr, (QueryTendermintHeader tm cliCtx w).ret = some (hdr, h, err)) ∧
    (∀ hdr h e, (QueryTendermintHeader tm cliCtx w).ret = some (hdr, h, some e) →
      (QueryNodeConsensusState tm cliCtx w).ret = some (ConsensusState.zero, 0, some e)) ∧
    (∀ hdr h hd, (QueryTendermintHeader tm cliCtx w).ret = some (hdr, h, none) →
      hdr.SignedHeader.Header = some hd →
      (QueryNodeConsensusState tm cliCtx w).ret =
        some ({ Timestamp := hd.Time, Root := tm.NewMerkleRoot hd.AppHash,
                ValidatorSet := hdr.ValidatorSet }, h, none)) := by
  unfold QueryNodeConsensusState QueryTendermintHeader
  cases hn : cliCtx.GetNode with
  | error e => simp
  | ok node =>
    cases hi : (node.ABCIInfo w).1 with
    | error e => simp [hi]
    | ok info =>
      cases hc : (node.Commit (node.ABCIInfo w).2 info.Response.LastBlockHeight).1 with
      | error e => simp [hi, hc]
      | ok commit =>
        cases hv : (node.Validators
            (node.Commit (node.ABCIInfo w).2 info.Response.LastBlockHeight).2
            info.Response.LastBlockHeight 0 10000).1 with
        | error e => simp [hi, hc, hv]
        | ok validators =>
          cases hh : commit.SignedHeader.Header with
          | none =>
            cases hvs : tm.NewValidatorSet validators.Validators with
            | none => simp [hi, hc, hv, hh, hvs]
            | some vs =>
              simp only [hi, hc, hv, hh, hvs]
              refine ⟨by simp, by simp, ?_⟩
              intro hdr h hd hret hhd
              simp only [Option.some.injEq, Prod.mk.injEq] at hret
              obtain ⟨rfl, -, -⟩ := hret
              simp [hh] at hhd
          | some hd =>
            cases hvs : tm.NewValidatorSet validators.Validators with
            | none => simp [hi, hc, hv, hh, hvs]
            | some vs =>
              simp only [hi, hc, hv, hh, hvs]
              refine ⟨by simp, by simp, ?_⟩
              intro hdr h hd1 hret hhd
              simp only [Option.some.injEq, Prod.mk.injEq] at hret
              obtain ⟨rfl, rfl, -⟩ := hret
              simp only [hh, Option.some.injEq] at hhd
              subst hhd
              rfl

/-- The outcome of `QueryTendermintHeader` when `ABCIInfo` fails. -/
theorem QueryTendermintHeader_info_err [Inhabited R] [Inhabited VS]
    (tm : TmPkg Val VS Root) (cliCtx : CLIContext W CS ConS Params P T R Val) (w w1 : W)
    (node : Node W T R Val) (e : GoError)
    (hn : cliCtx.GetNode = .ok node) (hi : node.ABCIInfo w = (.error e, w1)) :
    QueryTendermintHeader tm cliCtx w =
      { ret := some (Header.zero, 0, some e), world := w1, calls := [.ABCIInfo] } := by
  simp [QueryTendermintHeader, hn, hi]

/-- The outcome of `QueryTendermintHeader` when `Commit` fails. -/
theorem QueryTendermintHeader_commit_err [Inhabited R] [Inhabited VS]
    (tm : TmPkg Val VS Root) (cliCtx : CLIContext W CS ConS Params P T R Val) (w w1 w2 : W)
    (node : Node W T R Val) (info : ResultABCIInfo) (e : GoError)
    (hn : cliCtx.GetNode = .ok node) (hi : node.ABCIInfo w = (.ok info, w1))
    (hc : node.Commit w1 info.Response.LastBlockHeight = (.error e, w2)) :
    QueryTendermintHeader tm cliCtx w =
      { ret := some (Header.zero, 0, some e), world := w2,
        calls := [.ABCIInfo, .Commit info.Response.LastBlockHeight] } := by
  simp [QueryTendermintHeader, hn, hi, hc]

/-- The outcome of `QueryTendermintHeader` when `Validators` fails. -/
theorem QueryTendermintHeader_validators_err [Inhabited R] [Inhabited VS]
    (tm : TmPkg Val VS Root) (cliCtx : CLIContext W CS ConS Params P T R Val) (w w1 w2 w3 : W)
    (node : Node W T R Val) (info : ResultABCIInfo) (commit : ResultCommit T R) (e : GoError)
    (hn : cliCtx.GetNode = .ok node) (hi : node.ABCIInfo w = (.ok info, w1))
    (hc : node.Commit w1 info.Response.LastBlockHeight = (.ok commit, w2))
    (hv : node.Validators w2 info.Response.LastBlockHeight 0 10000 = (.error e, w3)) :
    QueryTendermintHeader tm cliCtx w =
      { ret := some (Header.zero, 0, some e), world := w3,
        calls := [.ABCIInfo, .Commit info.Response.LastBlockHeight,
                  .Validators info.Response.LastBlockHeight 0 10000] } := by
  simp [QueryTendermintHeader, hn, hi, hc, hv]

/-- The outcome of `QueryNodeConsensusState` when `ABCIInfo` fails. -/
theorem QueryNodeConsensusState_info_err [Inhabited T] [Inhabited Root] [Inhabited VS]
    (tm : TmPkg Val VS Root) (cliCtx : CLIContext W CS ConS Params P T R Val) (w w1 : W)
    (node : Node W T R Val) (e : GoError)
    (hn : cliCtx.GetNode = .ok node) (hi : node.ABCIInfo w = (.error e, w1)) :
    QueryNodeConsensusState tm cliCtx w =
      { ret := some (ConsensusState.zero, 0, some e), world := w1, calls := [.ABCIInfo] } := by
  simp [QueryNodeConsensusState, hn, hi]

/-- The outcome of `QueryNodeConsensusState` when `Commit` fails. -/
theorem QueryNodeConsensusState_commit_err [Inhabited T] [Inhabited Root] [Inhabited VS]
    (tm : TmPkg Val VS Root) (cliCtx : CLIContext W CS ConS Params P T R Val) (w w1 w2 : W)
    (node : Node W T R Val) (info : ResultABCIInfo) (e : GoError)
    (hn : cliCtx.GetNode = .ok node) (hi : node.ABCIInfo w = (.ok info, w1))
    (hc : node.Commit w1 info.Response.LastBlockHeight = (.error e, w2)) :
    QueryNodeConsensusState tm cliCtx w =
      { ret := some (ConsensusState.zero, 0, some e), world := w2,
        calls := [.ABCIInfo, .Commit info.Response.LastBlockHeight] } := by
  simp [QueryNodeConsensusState, hn, hi, hc]

/-- The outcome of `QueryNodeConsensusState` when `Validators` fails. -/
theorem QueryNodeConsensusState_validators_err [Inhabited T] [Inhabited Root] [Inhabited VS]
    (tm : TmPkg Val VS Root) (cliCtx : CLIContext W CS ConS Params P T R Val) (w w1 w2 w3 : W)
    (node : Node W T R Val) (info : ResultABCIInfo) (commit : ResultCommit T R) (e : GoError)
    (hn : cliCtx.GetNode = .ok node) (hi : node.ABCIInfo w = (.ok info, w1))
    (hc : node.Commit w1 info.Response.LastBlockHeight = (.ok commit, w2))
    (hv : node.Validators w2 info.Response.LastBlockHeight 0 10000 = (.error e, w3)) :
    QueryNodeConsensusState tm cliCtx w =
      { ret := some (ConsensusState.zero, 0, some e), world := w3,
        calls := [.ABCIInfo, .Commit info.Response.LastBlockHeight,
                  .Validators info.Response.LastBlockHeight 0 10000] } := by
  simp [QueryNodeConsensusState, hn, hi, hc, hv]

/-- The helper `QueryClientState` issues its one query whatever the node answers. -/
theorem QueryClientState_calls [Inhabited SR] (pkg : ClientPkg CS ConS Params P SR CSR)
    (cliCtx : CLIContext W CS ConS Params P T R Val) (clientID : String) (prove : Bool) (w : W) :
    (QueryClientState pkg cliCtx clientID prove w).calls =
      [.QueryABCI (clientStateReq pkg clientID prove)] := by
  unfold QueryClientState
  cases hq : (cliCtx.QueryABCI w (clientStateReq pkg clientID prove)).1 with
  | error e => simp [hq]
  | ok res =>
    cases hd : cliCtx.Codec.UnmarshalClientState res.Value with
    | error e => simp [hq, hd]
    | ok cs => simp [hq, hd]

/-- The return tuple of `QueryClientState` once the query has answered. -/
theorem QueryClientState_of_response [Inhabited SR] (pkg : ClientPkg CS ConS Params P SR CSR)
    (cliCtx : CLIContext W CS ConS Params P T R Val) (clientID : String) (prove : Bool)
    (w w1 : W) (res : ResponseQuery P)
    (hq : cliCtx.QueryABCI w (clientStateReq pkg clientID prove) = (.ok res, w1)) :
    (QueryClientState pkg cliCtx clientID prove w).ret =
      match cliCtx.Codec.UnmarshalClientState res.Value with
      | .error err => (default, some err)
      | .ok cs => (pkg.NewClientStateResponse clientID cs res.Proof res.Height, none) := by
  unfold QueryClientState
  cases hd : cliCtx.Codec.UnmarshalClientState res.Value with
  | error e => simp [hq, hd]
  | ok cs => simp [hq, hd]

/-- A successful `QueryClientState` decoded the value of a successful query. -/
theorem QueryClientState_inv [Inhabited SR] (pkg : ClientPkg CS ConS Params P SR CSR)
    (cliCtx : CLIContext W CS ConS Params P T R Val) (clientID : String) (prove : Bool) (w : W)
    (hok : (QueryClientState pkg cliCtx clientID prove w).ret.2 = none) :
    ∃ res cs w1,
      cliCtx.QueryABCI w (clientStateReq pkg clientID prove) = (.ok res, w1) ∧
      cliCtx.Codec.UnmarshalClientState res.Value = .ok cs := by
  unfold QueryClientState at hok
  cases hq : (cliCtx.QueryABCI w (clientStateReq pkg clientID prove)).1 with
  | error e => simp [hq] at hok
  | ok res =>
    cases hd : cliCtx.Codec.UnmarshalClientState res.Value with
    | error e => simp [hq, hd] at hok
    | ok cs => exact ⟨res, cs, _, Prod.ext hq rfl, hd⟩

/-- The helper `QueryConsensusState` issues its one query whatever the node answers. -/
theorem QueryConsensusState_calls [Inhabited CSR] (pkg : ClientPkg CS ConS Params P SR CSR)
    (cliCtx : CLIContext W CS ConS Params P T R Val) (clientID : String) (height : Nat)
    (prove : Bool) (w : W) :
    (QueryConsensusState pkg cliCtx clientID height prove w).calls =
      [.QueryABCI (consensusStateReq pkg clientID height prove)] := by
  unfold QueryConsensusState
  cases hq : (cliCtx.QueryABCI w (consensusStateReq pkg clientID height prove)).1 with
  | error e => simp [hq]
  | ok res =>
    cases hd : cliCtx.Codec.UnmarshalConsensusState res.Value with
    | error e => simp [hq, hd]
    | ok cs => simp [hq, hd]

/-- The return tuple of `QueryConsensusState` once the query has answered. -/
theorem QueryConsensusState_of_response [Inhabited CSR]
    (pkg : ClientPkg CS ConS Params P SR CSR)
    (cliCtx : CLIContext W CS ConS Params P T R Val) (clientID : String) (height : Nat)
    (prove : Bool) (w w1 : W) (res : ResponseQuery P)
    (hq : cliCtx.QueryABCI w (consensusStateReq pkg clientID height prove) = (.ok res, w1)) :
    (QueryConsensusState pkg cliCtx clientID height prove w).ret =
      match cliCtx.Codec.UnmarshalConsensusState res.Value with
      | .error err => (default, some err)
      | .ok cs => (pkg.NewConsensusStateResponse clientID cs res.Proof res.Height, none) := by
  unfold QueryConsensusState
  cases hd : cliCtx.Codec.UnmarshalConsensusState res.Value with
  | error e => simp [hq, hd]
  | ok cs => simp [hq, hd]

/-- A successful `QueryConsensusState` decoded the value of a successful
query. -/
theorem QueryConsensusState_inv [Inhabited CSR] (pkg : ClientPkg CS ConS Params P SR CSR)
    (cliCtx : CLIContext W CS ConS Params P T R Val) (clientID : String) (height : Nat)
    (prove : Bool) (w : W)
    (hok : (QueryConsensusState pkg cliCtx clientID height prove w).ret.2 = none) :
    ∃ res cs w1,
      cliCtx.QueryABCI w (consensusStateReq pkg clientID height prove) = (.ok res, w1) ∧
      cliCtx.Codec.UnmarshalConsensusState res.Value = .ok cs := by
  unfold QueryConsensusState at hok
  cases hq : (cliCtx.QueryABCI w (consensusStateReq pkg clientID height prove)).1 with
  | error e => simp [hq] at hok
  | ok res =>
    cases hd : cliCtx.Codec.UnmarshalConsensusState res.Value with
    | error e => simp [hq, hd] at hok
    | ok cs => exact ⟨res, cs, _, Prod.ext hq rfl, hd⟩

/-- The outcome of `QueryAllClientStates` once the params have marshalled:
one query, and the node's answer decoded and forwarded. -/
theorem QueryAllClientStates_of_marshal (pkg : ClientPkg CS ConS Params P SR CSR)
    (cliCtx : CLIContext W CS ConS Params P T R Val) (page limit : Int) (w : W) (bz : Bytes)
    (hm : cliCtx.Codec.MarshalJSON (pkg.NewQueryAllClientsParams page limit) = .ok bz) :
    (QueryAllClientStates pkg cliCtx page limit w).calls =
      [.QueryWithData (allClientsRoute pkg) bz] ∧
    (QueryAllClientStates pkg cliCtx page limit w).world =
      (cliCtx.QueryWithData w (allClientsRoute pkg) bz).2 ∧
    (QueryAllClientStates pkg cliCtx page limit w).ret =
      match (cliCtx.QueryWithData w (allClientsRoute pkg) bz).1 with
      | .error err => ([], 0, some err)
      | .ok (res, height) =>
        match cliCtx.Codec.UnmarshalJSON res with
        | .error err => ([], 0, some (.wrap "failed to unmarshal light clients: %w" err))
        | .ok clients => (clients, height, none) := by
  unfold QueryAllClientStates
  cases hq : (cliCtx.QueryWithData w (allClientsRoute pkg) bz).1 with
  | error e => simp [hm, hq]
  | ok r =>
    obtain ⟨res, height⟩ := r
    cases hd : cliCtx.Codec.UnmarshalJSON res with
    | error e => simp [hm, hq, hd]
    | ok clients => simp [hm, hq, hd]

/-- The outcome of `QueryAllClientStates` when the params do not marshal. -/
theorem QueryAllClientStates_marshal_err (pkg : ClientPkg CS ConS Params P SR CSR)
    (cliCtx : CLIContext W CS ConS Params P T R Val) (page limit : Int) (w : W) (e : GoError)
    (hm : cliCtx.Codec.MarshalJSON (pkg.NewQueryAllClientsParams page limit) = .error e) :
    QueryAllClientStates pkg cliCtx page limit w =
      { ret := ([], 0, some (.wrap "failed to marshal query params: %w" e)),
        world := w, calls := [] } := by
  simp [QueryAllClientStates, hm]

/-- A successful `QueryAllClientStates` marshalled, queried and decoded. -/
theorem QueryAllClientStates_inv (pkg : ClientPkg CS ConS Params P SR CSR)
    (cliCtx : CLIContext W CS ConS Params P T R Val) (page limit : Int) (w : W)
    (hok : (QueryAllClientStates pkg cliCtx page limit w).ret.2.2 = none) :
    ∃ bz res height clients w1,
      cliCtx.Codec.MarshalJSON (pkg.NewQueryAllClientsParams page limit) = .ok bz ∧
      cliCtx.QueryWithData w (allClientsRoute pkg) bz = (.ok (res, height), w1) ∧
      cliCtx.Codec.UnmarshalJSON res = .ok clients ∧
      (QueryAllClientStates pkg cliCtx page limit w).ret = (clients, height, none) := by
  cases hm : cliCtx.Codec.MarshalJSON (pkg.NewQueryAllClientsParams page limit) with
  | error e =>
    rw [QueryAllClientStates_marshal_err pkg cliCtx page limit w e hm] at hok
    simp at hok
  | ok bz =>
    have h := (QueryAllClientStates_of_marshal pkg cliCtx page limit w bz hm).2.2
    rw [h] at hok
    cases hq : (cliCtx.QueryWithData w (allClientsRoute pkg) bz).1 with
    | error e => simp [hq] at hok
    | ok r =>
      obtain ⟨res, height⟩ := r
      cases hd : cliCtx.Codec.UnmarshalJSON res with
      | error e => simp [hq, hd] at hok
      | ok clients =>
        refine ⟨bz, res, height, clients, _, rfl, Prod.ext hq rfl, hd, ?_⟩
        rw [h]; simp [hq, hd]

end Characterisation

section NodeClaims

variable {W CS ConS Params P SR CSR T R Val VS Root : Type}

/-- C1: whenever `QueryTendermintHeader` succeeds (returns a header `hdr` and
a height `h` with a nil error), the node was obtained, `ABCIInfo` was called
once and answered `info`, `Commit` and `Validators` were both called with the
height `info.Response.LastBlockHeight` (in the worlds left by the previous
round trip, so the head may have moved), the returned height is that same
height, the header's `SignedHeader` is the one of the commit result and its
`ValidatorSet` is what `NewValidatorSet` made of the validators returned; the
round trips issued are exactly these three, in this order. -/
theorem QueryTendermintHeader_height_pinned [Inhabited R] [Inhabited VS]
    (tm : TmPkg Val VS Root) (cliCtx : CLIContext W CS ConS Params P T R Val) (w : W)
    (hdr : Header T R VS) (h : Int)
    (hok : (QueryTendermintHeader tm cliCtx w).ret = some (hdr, h, none)) :
    ∃ node info commit validators w1 w2 w3,
      cliCtx.GetNode = .ok node ∧
      node.ABCIInfo w = (.ok info, w1) ∧
      node.Commit w1 info.Response.LastBlockHeight = (.ok commit, w2) ∧
      node.Validators w2 info.Response.LastBlockHeight 0 10000 = (.ok validators, w3) ∧
      h = info.Response.LastBlockHeight ∧
      hdr.SignedHeader = commit.SignedHeader ∧
      tm.NewValidatorSet validators.Validators = some hdr.ValidatorSet ∧
      (QueryTendermintHeader tm cliCtx w).calls =
        [.ABCIInfo, .Commit info.Response.LastBlockHeight,
         .Validators info.Response.LastBlockHeight 0 10000] ∧
      (QueryTendermintHeader tm cliCtx w).world = w3 := by
  obtain ⟨node, info, commit, validators, vs, w1, w2, w3, hn, hi, hc, hv, hvs⟩ :=
    QueryTendermintHeader_inv tm cliCtx w hdr h hok
  refine ⟨node, info, commit, validators, w1, w2, w3, hn, hi, hc, hv, ?_⟩
  rw [QueryTendermintHeader_ok tm cliCtx w w1 w2 w3 node info commit validators vs hn hi hc hv
    hvs] at hok ⊢
  simp only [Option.some.injEq, Prod.mk.injEq, and_true] at hok
  obtain ⟨rfl, rfl⟩ := hok
  exact ⟨rfl, rfl, hvs, rfl, rfl⟩

/-- C1 at the demo node with head height 100: the head moves to 101, 102 and
103 during the three round trips, and the header is still the one for 100. -/
theorem QueryTendermintHeader_height_pinned_witness :
    (QueryTendermintHeader demoTm demoCtx 100).ret =
      some ({ SignedHeader := { Header := some { Time := 1100, AppHash := [171] },
                                Commit := () },
              ValidatorSet := ([11, 22], 33) }, 100, none) ∧
    ∃ node info commit validators w1 w2 w3,
      demoCtx.GetNode = .ok node ∧
      node.ABCIInfo 100 = (.ok info, w1) ∧
      node.Commit w1 info.Response.LastBlockHeight = (.ok commit, w2) ∧
      node.Validators w2 info.Response.LastBlockHeight 0 10000 = (.ok validators, w3) ∧
      (100 : Int) = info.Response.LastBlockHeight ∧
      ({ Header := some { Time := 1100, AppHash := [171] }, Commit := () } :
        SignedHeader Int Unit) = commit.SignedHeader ∧
      demoTm.NewValidatorSet validators.Validators = some ([11, 22], 33) ∧
      (QueryTendermintHeader demoTm demoCtx 100).calls =
        [.ABCIInfo, .Commit info.Response.LastBlockHeight,
         .Validators info.Response.LastBlockHeight 0 10000] ∧
      (QueryTendermintHeader demoTm demoCtx 100).world = w3 :=
  ⟨by rfl,
   QueryTendermintHeader_height_pinned demoTm demoCtx 100
     { SignedHeader := { Header := some { Time := 1100, AppHash := [171] }, Commit := () },
       ValidatorSet := ([11, 22], 33) } 100 (by rfl)⟩

/-- C2 fails at the demo node: its `Validators` response at height 100 holds
two validators and reports a total of 20000, and `QueryTendermintHeader`
returns no error and a header whose validator set is built from the two. -/
theorem truncated_validators_accepted :
    demoCtx.GetNode = .ok demoNode ∧
    demoNode.Validators 102 100 0 10000 =
      (.ok { BlockHeight := 100, Validators := [11, 22], Total := 20000 }, 103) ∧
    (([11, 22] : List Nat).length : Int) < 20000 ∧
    demoTm.NewValidatorSet [11, 22] = some ([11, 22], 33) ∧
    (QueryTendermintHeader demoTm demoCtx 100).ret =
      some ({ SignedHeader := { Header := some { Time := 1100, AppHash := [171] },
                                Commit := () },
              ValidatorSet := ([11, 22], 33) }, 100, none) := by
  refine ⟨rfl, rfl, by decide, rfl, rfl⟩

/-- C2 as amended: for every node whose `Validators` response at the pinned
height is truncated (its total exceeds the number of validators returned),
if the three round trips succeed and `NewValidatorSet` accepts the validators
returned, making `vs` of them, then `QueryTendermintHeader` succeeds and
returns the header with `vs`, built from exactly the validators of that
single response; the total is not looked at. -/
theorem QueryTendermintHeader_truncated_returns_partial [Inhabited R] [Inhabited VS]
    (tm : TmPkg Val VS Root) (cliCtx : CLIContext W CS ConS Params P T R Val) (w w1 w2 w3 : W)
    (node : Node W T R Val) (info : ResultABCIInfo) (commit : ResultCommit T R)
    (bh total : Int) (vals : List Val) (vs : VS)
    (hn : cliCtx.GetNode = .ok node)
    (hi : node.ABCIInfo w = (.ok info, w1))
    (hc : node.Commit w1 info.Response.LastBlockHeight = (.ok commit, w2))
    (hv : node.Validators w2 info.Response.LastBlockHeight 0 10000 =
      (.ok { BlockHeight := bh, Validators := vals, Total := total }, w3))
    (_htrunc : (vals.length : Int) < total)
    (hvs : tm.NewValidatorSet vals = some vs) :
    (QueryTendermintHeader tm cliCtx w).ret =
      some ({ SignedHeader := commit.SignedHeader, ValidatorSet := vs },
            info.Response.LastBlockHeight, none) := by
  rw [QueryTendermintHeader_ok tm cliCtx w w1 w2 w3 node info commit _ vs hn hi hc hv hvs]

/-- C2 as amended, at the demo node. -/
theorem QueryTendermintHeader_truncated_returns_partial_witness :
    (QueryTendermintHeader demoTm demoCtx 100).ret =
      some ({ SignedHeader := { Header := some { Time := 1100, AppHash := [171] },
                                Commit := () },
              ValidatorSet := ([11, 22], 33) }, 100, none) :=
  QueryTendermintHeader_truncated_returns_partial demoTm demoCtx 100 101 102 103 demoNode
    { Response := { LastBlockHeight := 100 } }
    { SignedHeader := { Header := some { Time := 1100, AppHash := [171] }, Commit := () },
      CanonicalCommit := true }
    100 20000 [11, 22] ([11, 22], 33) rfl rfl rfl rfl (by decide) rfl

/-- C8 fails at a node whose commit has a nil header: all three round trips
succeed, `QueryTendermintHeader` returns the header for height 100 without an
error, and `QueryNodeConsensusState` panics and returns nothing. -/
theorem nil_header_commit_splits_helpers :
    nilHeaderCtx.GetNode = .ok nilHeaderNode ∧
    nilHeaderNode.Commit 101 100 =
      (.ok { SignedHeader := { Header := none, Commit := () }, CanonicalCommit := true }, 102) ∧
    (QueryTendermintHeader demoTm nilHeaderCtx 100).ret =
      some ({ SignedHeader := { Header := none, Commit := () },
              ValidatorSet := ([11, 22], 33) }, 100, none) ∧
    (QueryNodeConsensusState demoTm nilHeaderCtx 100).ret = none := by
  refine ⟨rfl, rfl, rfl, rfl⟩

/-- C8 as amended: `QueryNodeConsensusState` issues the same round trips as
`QueryTendermintHeader` and leaves the same world. Whenever it returns,
`QueryTendermintHeader` returns the same height and the same error. Whenever
`QueryTendermintHeader` returns an error, it returns that error next to the
zero state and height 0; whenever `QueryTendermintHeader` succeeds with a
header whose commit carries a block header `hd`, it succeeds with the same
height and the state made of `hd.Time`, `NewMerkleRoot hd.AppHash` and the
header's `ValidatorSet`. And whenever it succeeds, the round trips were
`ABCIInfo`, then `Commit` and `Validators` at `info.Response.LastBlockHeight`,
which is the height returned, the commit carried a block header `hd`, the
validators were accepted as `vs`, its state is made of `hd.Time`,
`NewMerkleRoot hd.AppHash` and `vs`, and `QueryTendermintHeader` returns the
commit's `SignedHeader` with the same `vs` at the same height. -/
theorem QueryNodeConsensusState_refines_header
    [Inhabited T] [Inhabited R] [Inhabited Root] [Inhabited VS]
    (tm : TmPkg Val VS Root) (cliCtx : CLIContext W CS ConS Params P T R Val) (w : W) :
    (QueryNodeConsensusState tm cliCtx w).calls = (QueryTendermintHeader tm cliCtx w).calls ∧
    (QueryNodeConsensusState tm cliCtx w).world = (QueryTendermintHeader tm cliCtx w).world ∧
    (∀ st h err, (QueryNodeConsensusState tm cliCtx w).ret = some (st, h, err) →
      ∃ hdr, (QueryTendermintHeader tm cliCtx w).ret = some (hdr, h, err)) ∧
    (∀ hdr h e, (QueryTendermintHeader tm cliCtx w).ret = some (hdr, h, some e) →
      (QueryNodeConsensusState tm cliCtx w).ret = some (ConsensusState.zero, 0, some e)) ∧
    (∀ hdr h hd, (QueryTendermintHeader tm cliCtx w).ret = some (hdr, h, none) →
      hdr.SignedHeader.Header = some hd →
      (QueryNodeConsensusState tm cliCtx w).ret =
        some ({ Timestamp := hd.Time, Root := tm.NewMerkleRoot hd.AppHash,
                ValidatorSet := hdr.ValidatorSet }, h, none)) ∧
    (∀ st h, (QueryNodeConsensusState tm cliCtx w).ret = some (st, h, none) →
      ∃ node info commit validators hd vs w1 w2 w3,
        cliCtx.GetNode = .ok node ∧
        node.ABCIInfo w = (.ok info, w1) ∧
        node.Commit w1 info.Response.LastBlockHeight = (.ok commit, w2) ∧
        node.Validators w2 info.Response.LastBlockHeight 0 10000 = (.ok validators, w3) ∧
        commit.SignedHeader.Header = some hd ∧
        tm.NewValidatorSet validators.Validators = some vs ∧
        (QueryNodeConsensusState tm cliCtx w).calls =
          [.ABCIInfo, .Commit info.Response.LastBlockHeight,
           .Validators info.Response.LastBlockHeight 0 10000] ∧
        h = info.Response.LastBlockHeight ∧
        st = { Timestamp := hd.Time, Root := tm.NewMerkleRoot hd.AppHash,
               ValidatorSet := vs } ∧
        (QueryTendermintHeader tm cliCtx w).ret =
          some ({ SignedHeader := commit.SignedHeader, ValidatorSet := vs },
                info.Response.LastBlockHeight, none)) := by
  obtain ⟨hcalls, hworld⟩ := node_helpers_same_calls (R := R) tm cliCtx w
  obtain ⟨hback, herr, hfwd⟩ := node_helpers_returns (R := R) tm cliCtx w
  refine ⟨hcalls, hworld, hback, herr, hfwd, ?_⟩
  intro st h hok
  obtain ⟨node, info, commit, validators, hd, vs, w1, w2, w3, hn, hi, hc, hv, hh, hvs⟩ :=
    QueryNodeConsensusState_inv tm cliCtx w st h hok
  refine ⟨node, info, commit, validators, hd, vs, w1, w2, w3, hn, hi, hc, hv, hh, hvs, ?_⟩
  rw [QueryNodeConsensusState_ok tm cliCtx w w1 w2 w3 node info commit validators hd vs
    hn hi hc hv hh hvs] at hok ⊢
  rw [QueryTendermintHeader_ok tm cliCtx w w1 w2 w3 node info commit validators vs hn hi hc hv
    hvs]
  simp only [Option.some.injEq, Prod.mk.injEq, and_true] at hok
  obtain ⟨rfl, rfl⟩ := hok
  exact ⟨rfl, rfl, rfl, rfl⟩

/-- C8 as amended, at the demo node: the header returned for height 100
carries a block header, so the consensus state is returned and is the one
derived from the commit and validators at height 100. -/
theorem QueryNodeConsensusState_refines_header_witness :
    (QueryNodeConsensusState demoTm demoCtx 100).ret =
      some ({ Timestamp := 1100, Root := demoTm.NewMerkleRoot [171],
              ValidatorSet := ([11, 22], 33) }, 100, none) ∧
    ∃ node info commit validators hd vs w1 w2 w3,
      demoCtx.GetNode = .ok node ∧
      node.ABCIInfo 100 = (.ok info, w1) ∧
      node.Commit w1 info.Response.LastBlockHeight = (.ok commit, w2) ∧
      node.Validators w2 info.Response.LastBlockHeight 0 10000 = (.ok validators, w3) ∧
      commit.SignedHeader.Header = some hd ∧
      demoTm.NewValidatorSet validators.Validators = some vs ∧
      (QueryNodeConsensusState demoTm demoCtx 100).calls =
        [.ABCIInfo, .Commit info.Response.LastBlockHeight,
         .Validators info.Response.LastBlockHeight 0 10000] ∧
      (100 : Int) = info.Response.LastBlockHeight ∧
      ({ Timestamp := 1100, Root := [171], ValidatorSet := ([11, 22], 33) } :
        ConsensusState Int Bytes (List Nat × Nat)) =
        { Timestamp := hd.Time, Root := demoTm.NewMerkleRoot hd.AppHash,
          ValidatorSet := vs } ∧
      (QueryTendermintHeader demoTm demoCtx 100).ret =
        some ({ SignedHeader := commit.SignedHeader, ValidatorSet := vs },
              info.Response.LastBlockHeight, none) :=
  ⟨(QueryNodeConsensusState_refines_header demoTm demoCtx 100).2.2.2.2.1
      { SignedHeader := { Header := some { Time := 1100, AppHash := [171] }, Commit := () },
        ValidatorSet := ([11, 22], 33) } 100 { Time := 1100, AppHash := [171] } rfl rfl,
   (QueryNodeConsensusState_refines_header demoTm demoCtx 100).2.2.2.2.2
      { Timestamp := 1100, Root := [171], ValidatorSet := ([11, 22], 33) } 100 rfl⟩

/-- C9 fails at nodes whose `ABCIInfo`, `Commit` or `Validators` round trip
fails: `QueryTendermintHeader` returns the very error of the failing round
trip, which is not an error built by wrapping. -/
theorem failed_round_trip_error_not_wrapped :
    (failingNode 0).ABCIInfo 100 = (.error (.mk "connection refused"), 100) ∧
    (QueryTendermintHeader demoTm (failingCtx 0) 100).ret =
      some (Header.zero, 0, some (.mk "connection refused")) ∧
    (failingNode 1).Commit 101 100 = (.error (.mk "height not available"), 101) ∧
    (QueryTendermintHeader demoTm (failingCtx 1) 100).ret =
      some (Header.zero, 0, some (.mk "height not available")) ∧
    (failingNode 2).Validators 102 100 0 10000 = (.error (.mk "timeout"), 102) ∧
    (QueryTendermintHeader demoTm (failingCtx 2) 100).ret =
      some (Header.zero, 0, some (.mk "timeout")) ∧
    ∀ step format err hdr h, step < 3 →
      (QueryTendermintHeader demoTm (failingCtx step) 100).ret ≠
        some (hdr, h, some (.wrap format err)) := by
  refine ⟨rfl, rfl, rfl, rfl, rfl, rfl, ?_⟩
  intro step format err hdr h hstep
  interval_cases step
  · exact fun hh => GoError.noConfusion (Option.some.inj
      (congrArg (fun r => r.2.2) (Option.some.inj hh)))
  · exact fun hh => GoError.noConfusion (Option.some.inj
      (congrArg (fun r => r.2.2) (Option.some.inj hh)))
  · exact fun hh => GoError.noConfusion (Option.some.inj
      (congrArg (fun r => r.2.2) (Option.some.inj hh)))

/-- C9 as amended: when one of the three round trips fails, both
`QueryTendermintHeader` and `QueryNodeConsensusState` return the error of
that round trip itself, unwrapped, next to the zero value and height 0, and
the round trips issued stop at the failing one. -/
theorem node_helpers_abort_on_failed_round_trip
    [Inhabited T] [Inhabited R] [Inhabited Root] [Inhabited VS]
    (tm : TmPkg Val VS Root) (cliCtx : CLIContext W CS ConS Params P T R Val) (w : W)
    (node : Node W T R Val) (hn : cliCtx.GetNode = .ok node) :
    (∀ e w1, node.ABCIInfo w = (.error e, w1) →
      (QueryTendermintHeader tm cliCtx w).ret = some (Header.zero, 0, some e) ∧
      (QueryTendermintHeader tm cliCtx w).calls = [.ABCIInfo] ∧
      (QueryNodeConsensusState tm cliCtx w).ret = some (ConsensusState.zero, 0, some e) ∧
      (QueryNodeConsensusState tm cliCtx w).calls = [.ABCIInfo]) ∧
    (∀ info e w1 w2, node.ABCIInfo w = (.ok info, w1) →
      node.Commit w1 info.Response.LastBlockHeight = (.error e, w2) →
      (QueryTendermintHeader tm cliCtx w).ret = some (Header.zero, 0, some e) ∧
      (QueryTendermintHeader tm cliCtx w).calls =
        [.ABCIInfo, .Commit info.Response.LastBlockHeight] ∧
      (QueryNodeConsensusState tm cliCtx w).ret = some (ConsensusState.zero, 0, some e) ∧
      (QueryNodeConsensusState tm cliCtx w).calls =
        [.ABCIInfo, .Commit info.Response.LastBlockHeight]) ∧
    (∀ info commit e w1 w2 w3, node.ABCIInfo w = (.ok info, w1) →
      node.Commit w1 info.Response.LastBlockHeight = (.ok commit, w2) →
      node.Validators w2 info.Response.LastBlockHeight 0 10000 = (.error e, w3) →
      (QueryTendermintHeader tm cliCtx w).ret = some (Header.zero, 0, some e) ∧
      (QueryTendermintHeader tm cliCtx w).calls =
        [.ABCIInfo, .Commit info.Response.LastBlockHeight,
         .Validators info.Response.LastBlockHeight 0 10000] ∧
      (QueryNodeConsensusState tm cliCtx w).ret = some (ConsensusState.zero, 0, some e) ∧
      (QueryNodeConsensusState tm cliCtx w).calls =
        [.ABCIInfo, .Commit info.Response.LastBlockHeight,
         .Validators info.Response.LastBlockHeight 0 10000]) := by
  refine ⟨?_, ?_, ?_⟩
  · intro e w1 hi
    rw [QueryTendermintHeader_info_err tm cliCtx w w1 node e hn hi,
      QueryNodeConsensusState_info_err tm cliCtx w w1 node e hn hi]
    exact ⟨rfl, rfl, rfl, rfl⟩
  · intro info e w1 w2 hi hc
    rw [QueryTendermintHeader_commit_err tm cliCtx w w1 w2 node info e hn hi hc,
      QueryNodeConsensusState_commit_err tm cliCtx w w1 w2 node info e hn hi hc]
    exact ⟨rfl, rfl, rfl, rfl⟩
  · intro info commit e w1 w2 w3 hi hc hv
    rw [QueryTendermintHeader_validators_err tm cliCtx w w1 w2 w3 node info commit e hn hi hc hv,
      QueryNodeConsensusState_validators_err tm cliCtx w w1 w2 w3 node info commit e hn hi hc hv]
    exact ⟨rfl, rfl, rfl, rfl⟩

/-- C9 as amended, at the three failing demo nodes with head height 100. -/
theorem node_helpers_abort_on_failed_round_trip_witness :
    ((QueryTendermintHeader demoTm (failingCtx 0) 100).ret =
        some (Header.zero, 0, some (.mk "connection refused")) ∧
      (QueryTendermintHeader demoTm (failingCtx 0) 100).calls = [.ABCIInfo] ∧
      (QueryNodeConsensusState demoTm (failingCtx 0) 100).ret =
        some (ConsensusState.zero, 0, some (.mk "connection refused")) ∧
      (QueryNodeConsensusState demoTm (failingCtx 0) 100).calls = [.ABCIInfo]) ∧
    ((QueryTendermintHeader demoTm (failingCtx 1) 100).ret =
        some (Header.zero, 0, some (.mk "height not available")) ∧
      (QueryTendermintHeader demoTm (failingCtx 1) 100).calls = [.ABCIInfo, .Commit 100] ∧
      (QueryNodeConsensusState demoTm (failingCtx 1) 100).ret =
        some (ConsensusState.zero, 0, some (.mk "height not available")) ∧
      (QueryNodeConsensusState demoTm (failingCtx 1) 100).calls = [.ABCIInfo, .Commit 100]) ∧
    ((QueryTendermintHeader demoTm (failingCtx 2) 100).ret =
        some (Header.zero, 0, some (.mk "timeout")) ∧
      (QueryTendermintHeader demoTm (failingCtx 2) 100).calls =
        [.ABCIInfo, .Commit 100, .Validators 100 0 10000] ∧
      (QueryNodeConsensusState demoTm (failingCtx 2) 100).ret =
        some (ConsensusState.zero, 0, some (.mk "timeout")) ∧
      (QueryNodeConsensusState demoTm (failingCtx 2) 100).calls =
        [.ABCIInfo, .Commit 100, .Validators 100 0 10000]) :=
  ⟨(node_helpers_abort_on_failed_round_trip demoTm (failingCtx 0) 100 (failingNode 0) rfl).1
      (.mk "connection refused") 100 rfl,
   (node_helpers_abort_on_failed_round_trip demoTm (failingCtx 1) 100 (failingNode 1) rfl).2.1
      { Response := { LastBlockHeight := 100 } } (.mk "height not available")
      101 101 rfl rfl,
   (node_helpers_abort_on_failed_round_trip demoTm (failingCtx 2) 100 (failingNode 2) rfl).2.2
      { Response := { LastBlockHeight := 100 } }
      { SignedHeader := { Header := some { Time := 1100, AppHash := [171] }, Commit := () },
        CanonicalCommit := true }
      (.mk "timeout") 101 102 102 rfl rfl rfl⟩

end NodeClaims

section StoreClaims

variable {W CS ConS Params P SR CSR T R Val VS Root : Type}

/-- C3: `QueryClientState clientID true` issues exactly one round trip, the
ABCI query with path `store/ibc/key`, data `KeyClientState clientID`, the
prove flag set and no height; and when it succeeds, that query answered some
`res`, the codec decoded `res.Value` to some `cs`, and the response returned
is `NewClientStateResponse clientID cs res.Proof res.Height`. -/
theorem QueryClientState_prove_single_round_trip [Inhabited SR]
    (pkg : ClientPkg CS ConS Params P SR CSR)
    (cliCtx : CLIContext W CS ConS Params P T R Val) (clientID : String) (w : W) :
    (QueryClientState pkg cliCtx clientID true w).calls =
      [.QueryABCI { Data := pkg.KeyClientState clientID, Path := "store/ibc/key",
                    Height := 0, Prove := true }] ∧
    ((QueryClientState pkg cliCtx clientID true w).ret.2 = none →
      ∃ res cs w1,
        cliCtx.QueryABCI w { Data := pkg.KeyClientState clientID, Path := "store/ibc/key",
                             Height := 0, Prove := true } = (.ok res, w1) ∧
        cliCtx.Codec.UnmarshalClientState res.Value = .ok cs ∧
        (QueryClientState pkg cliCtx clientID true w).ret =
          (pkg.NewClientStateResponse clientID cs res.Proof res.Height, none) ∧
        (QueryClientState pkg cliCtx clientID true w).world = w1) := by
  refine ⟨QueryClientState_calls pkg cliCtx clientID true w, ?_⟩
  intro hok
  obtain ⟨res, cs, w1, hq, hd⟩ := QueryClientState_inv pkg cliCtx clientID true w hok
  refine ⟨res, cs, w1, hq, hd, ?_, ?_⟩
  · rw [QueryClientState_of_response pkg cliCtx clientID true w w1 res hq, hd]
  · have hq1 := congrArg Prod.fst hq
    have hq2 := congrArg Prod.snd hq
    simp only [clientStateReq] at hq1 hq2
    simp [QueryClientState, clientStateReq, hq1, hq2, hd]

/-- C3 at the demo store, for the recorded client `07-tendermint-0`. -/
theorem QueryClientState_prove_single_round_trip_witness :
    (QueryClientState demoPkg demoCtx "07-tendermint-0" true 100).ret.2 = none ∧
    ∃ res cs w1,
      demoCtx.QueryABCI 100 { Data := demoPkg.KeyClientState "07-tendermint-0",
                              Path := "store/ibc/key", Height := 0, Prove := true } =
        (.ok res, w1) ∧
      demoCtx.Codec.UnmarshalClientState res.Value = .ok cs ∧
      (QueryClientState demoPkg demoCtx "07-tendermint-0" true 100).ret =
        (demoPkg.NewClientStateResponse "07-tendermint-0" cs res.Proof res.Height, none) ∧
      (QueryClientState demoPkg demoCtx "07-tendermint-0" true 100).world = w1 :=
  ⟨by rfl,
   (QueryClientState_prove_single_round_trip demoPkg demoCtx "07-tendermint-0" 100).2 (by rfl)⟩

/-- C4 fails at the demo store: the key of client `nope` is absent, the query
answers with an empty value, and both `QueryClientState` and
`QueryConsensusState` return exactly the error the codec gives for the empty
bytes. -/
theorem absent_key_returns_codec_error :
    demoCtx.QueryABCI 100 (clientStateReq demoPkg "nope" false) =
      (.ok { Value := [], Proof := none, Height := 100 }, 101) ∧
    demoCtx.Codec.UnmarshalClientState [] =
      .error (.mk "UnmarshalBinaryLengthPrefixed cannot decode empty bytes") ∧
    (QueryClientState demoPkg demoCtx "nope" false 100).ret.2 =
      some (.mk "UnmarshalBinaryLengthPrefixed cannot decode empty bytes") ∧
    demoCtx.QueryABCI 100 (consensusStateReq demoPkg "nope" 50 false) =
      (.ok { Value := [], Proof := none, Height := 100 }, 101) ∧
    demoCtx.Codec.UnmarshalConsensusState [] =
      .error (.mk "UnmarshalBinaryLengthPrefixed cannot decode empty bytes") ∧
    (QueryConsensusState demoPkg demoCtx "nope" 50 false 100).ret.2 =
      some (.mk "UnmarshalBinaryLengthPrefixed cannot decode empty bytes") := by
  refine ⟨rfl, rfl, rfl, rfl, rfl, rfl⟩

/-- C4 as amended: when the query succeeds with an empty value and the codec
rejects the empty bytes, `QueryClientState` returns the codec's error itself
next to the zero response, and so does `QueryConsensusState`. -/
theorem absent_key_error_is_decode_error [Inhabited SR] [Inhabited CSR]
    (pkg : ClientPkg CS ConS Params P SR CSR)
    (cliCtx : CLIContext W CS ConS Params P T R Val) (clientID : String) (prove : Bool)
    (w : W) :
    (∀ res w1 e, cliCtx.QueryABCI w (clientStateReq pkg clientID prove) = (.ok res, w1) →
      res.Value = [] → cliCtx.Codec.UnmarshalClientState [] = .error e →
      (QueryClientState pkg cliCtx clientID prove w).ret = (default, some e)) ∧
    (∀ height res w1 e,
      cliCtx.QueryABCI w (consensusStateReq pkg clientID height prove) = (.ok res, w1) →
      res.Value = [] → cliCtx.Codec.UnmarshalConsensusState [] = .error e →
      (QueryConsensusState pkg cliCtx clientID height prove w).ret = (default, some e)) := by
  constructor
  · intro res w1 e hq hv hd
    rw [QueryClientState_of_response pkg cliCtx clientID prove w w1 res hq, hv, hd]
  · intro height res w1 e hq hv hd
    rw [QueryConsensusState_of_response pkg cliCtx clientID height prove w w1 res hq, hv, hd]

/-- C4 as amended, at the demo store for the absent client `nope`. -/
theorem absent_key_error_is_decode_error_witness :
    (QueryClientState demoPkg demoCtx "nope" true 100).ret =
      (default, some (.mk "UnmarshalBinaryLengthPrefixed cannot decode empty bytes")) ∧
    (QueryConsensusState demoPkg demoCtx "nope" 50 true 100).ret =
      (default, some (.mk "UnmarshalBinaryLengthPrefixed cannot decode empty bytes")) :=
  ⟨(absent_key_error_is_decode_error demoPkg demoCtx "nope" true 100).1
      { Value := [], Proof := some 5, Height := 100 } 101 _ rfl rfl rfl,
   (absent_key_error_is_decode_error demoPkg demoCtx "nope" true 100).2 50
      { Value := [], Proof := some 5, Height := 100 } 101 _ rfl rfl rfl⟩

/-- C5: if the query without proof answers `r0` and the query with proof
answers `r1`, in any two worlds, and the two responses carry the same value
and the same height, then either the codec rejects the value and both calls
return that same error, or the codec decodes it to one `cs` and both calls
succeed with a response constructed from that same `cs` (and the same
height); only the proof argument may differ. -/
theorem QueryClientState_prove_independent [Inhabited SR]
    (pkg : ClientPkg CS ConS Params P SR CSR)
    (cliCtx : CLIContext W CS ConS Params P T R Val) (clientID : String)
    (w0 w0a w1 w1a : W) (r0 r1 : ResponseQuery P)
    (h0 : cliCtx.QueryABCI w0 (clientStateReq pkg clientID false) = (.ok r0, w0a))
    (h1 : cliCtx.QueryABCI w1 (clientStateReq pkg clientID true) = (.ok r1, w1a))
    (hval : r0.Value = r1.Value) (hheight : r0.Height = r1.Height) :
    (∃ e, cliCtx.Codec.UnmarshalClientState r0.Value = .error e ∧
      (QueryClientState pkg cliCtx clientID false w0).ret = (default, some e) ∧
      (QueryClientState pkg cliCtx clientID true w1).ret = (default, some e)) ∨
    (∃ cs, cliCtx.Codec.UnmarshalClientState r0.Value = .ok cs ∧
      (QueryClientState pkg cliCtx clientID false w0).ret =
        (pkg.NewClientStateResponse clientID cs r0.Proof r0.Height, none) ∧
      (QueryClientState pkg cliCtx clientID true w1).ret =
        (pkg.NewClientStateResponse clientID cs r1.Proof r0.Height, none)) := by
  rw [QueryClientState_of_response pkg cliCtx clientID false w0 w0a r0 h0,
    QueryClientState_of_response pkg cliCtx clientID true w1 w1a r1 h1, ← hval, ← hheight]
  cases hd : cliCtx.Codec.UnmarshalClientState r0.Value with
  | error e => exact Or.inl ⟨e, rfl, rfl, rfl⟩
  | ok cs => exact Or.inr ⟨cs, rfl, rfl, rfl⟩

/-- C5 at the demo store: in world 100 the query of `07-tendermint-0` answers
without a proof when none is asked and with proof 5 when one is. -/
theorem QueryClientState_prove_independent_witness :
    (∃ e, demoCtx.Codec.UnmarshalClientState [42] = .error e ∧
      (QueryClientState demoPkg demoCtx "07-tendermint-0" false 100).ret = (default, some e) ∧
      (QueryClientState demoPkg demoCtx "07-tendermint-0" true 100).ret = (default, some e)) ∨
    (∃ cs, demoCtx.Codec.UnmarshalClientState [42] = .ok cs ∧
      (QueryClientState demoPkg demoCtx "07-tendermint-0" false 100).ret =
        (demoPkg.NewClientStateResponse "07-tendermint-0" cs none 100, none) ∧
      (QueryClientState demoPkg demoCtx "07-tendermint-0" true 100).ret =
        (demoPkg.NewClientStateResponse "07-tendermint-0" cs (some 5) 100, none)) :=
  QueryClientState_prove_independent demoPkg demoCtx "07-tendermint-0" 100 101 100 101
    { Value := [42], Proof := none, Height := 100 }
    { Value := [42], Proof := some 5, Height := 100 } rfl rfl rfl rfl

/-- C10: `QueryConsensusState clientID h prove` issues exactly one round trip,
the ABCI query with path `store/ibc/key`, data `KeyConsensusState clientID h`,
the given prove flag and height 0, so `h` occurs in the key only; and when it
succeeds, that query answered some `res`, the codec decoded `res.Value` to
some `cs`, the response returned is
`NewConsensusStateResponse clientID cs res.Proof res.Height`, and the world
left is the one after that query. -/
theorem QueryConsensusState_single_query_at_latest [Inhabited CSR]
    (pkg : ClientPkg CS ConS Params P SR CSR)
    (cliCtx : CLIContext W CS ConS Params P T R Val) (clientID : String) (h : Nat)
    (prove : Bool) (w : W) :
    (QueryConsensusState pkg cliCtx clientID h prove w).calls =
      [.QueryABCI { Data := pkg.KeyConsensusState clientID h, Path := "store/ibc/key",
                    Height := 0, Prove := prove }] ∧
    ((QueryConsensusState pkg cliCtx clientID h prove w).ret.2 = none →
      ∃ res cs w1,
        cliCtx.QueryABCI w { Data := pkg.KeyConsensusState clientID h, Path := "store/ibc/key",
                             Height := 0, Prove := prove } = (.ok res, w1) ∧
        cliCtx.Codec.UnmarshalConsensusState res.Value = .ok cs ∧
        (QueryConsensusState pkg cliCtx clientID h prove w).ret =
          (pkg.NewConsensusStateResponse clientID cs res.Proof res.Height, none) ∧
        (QueryConsensusState pkg cliCtx clientID h prove w).world = w1) := by
  refine ⟨QueryConsensusState_calls pkg cliCtx clientID h prove w, ?_⟩
  intro hok
  obtain ⟨res, cs, w1, hq, hd⟩ := QueryConsensusState_inv pkg cliCtx clientID h prove w hok
  refine ⟨res, cs, w1, hq, hd, ?_, ?_⟩
  · rw [QueryConsensusState_of_response pkg cliCtx clientID h prove w w1 res hq, hd]
  · have hq1 := congrArg Prod.fst hq
    have hq2 := congrArg Prod.snd hq
    simp only [consensusStateReq] at hq1 hq2
    simp [QueryConsensusState, consensusStateReq, hq1, hq2, hd]

/-- C10 at the demo store: the consensus state of `07-tendermint-0` recorded
for height 50, read while the node is at height 100. -/
theorem QueryConsensusState_single_query_at_latest_witness :
    (QueryConsensusState demoPkg demoCtx "07-tendermint-0" 50 true 100).ret.2 = none ∧
    ∃ res cs w1,
      demoCtx.QueryABCI 100 { Data := demoPkg.KeyConsensusState "07-tendermint-0" 50,
                              Path := "store/ibc/key", Height := 0, Prove := true } =
        (.ok res, w1) ∧
      demoCtx.Codec.UnmarshalConsensusState res.Value = .ok cs ∧
      (QueryConsensusState demoPkg demoCtx "07-tendermint-0" 50 true 100).ret =
        (demoPkg.NewConsensusStateResponse "07-tendermint-0" cs res.Proof res.Height, none) ∧
      (QueryConsensusState demoPkg demoCtx "07-tendermint-0" 50 true 100).world = w1 :=
  ⟨by rfl,
   (QueryConsensusState_single_query_at_latest demoPkg demoCtx "07-tendermint-0" 50 true 100).2
     (by rfl)⟩

end StoreClaims

section ListClaims

variable {W CS ConS Params P SR CSR T R Val VS Root : Type}

/-- C6 fails at the demo node: asked for page 1 with limit 2, the node answers
with three clients and `QueryAllClientStates` returns all three without an
error. -/
theorem list_longer_than_limit_returned :
    (QueryAllClientStates demoPkg demoCtx 1 2 100).ret = ([[1], [2], [3]], 100, none) ∧
    ¬ ((QueryAllClientStates demoPkg demoCtx 1 2 100).ret.1.length : Int) ≤ 2 := by
  refine ⟨rfl, by decide⟩

/-- C6 as amended: for every page and limit, if `QueryAllClientStates`
succeeds then the params marshalled to some `bz`, the one query at the
all-clients route with `bz` answered `(res, height)`, the codec decoded `res`
to `clients`, and the helper returns `clients` and `height` as they are; the
length of `clients` is not compared with `limit`. -/
theorem QueryAllClientStates_returns_decoded_list
    (pkg : ClientPkg CS ConS Params P SR CSR)
    (cliCtx : CLIContext W CS ConS Params P T R Val) (page limit : Int) (w : W)
    (hok : (QueryAllClientStates pkg cliCtx page limit w).ret.2.2 = none) :
    ∃ bz res height clients w1,
      cliCtx.Codec.MarshalJSON (pkg.NewQueryAllClientsParams page limit) = .ok bz ∧
      cliCtx.QueryWithData w (allClientsRoute pkg) bz = (.ok (res, height), w1) ∧
      cliCtx.Codec.UnmarshalJSON res = .ok clients ∧
      (QueryAllClientStates pkg cliCtx page limit w).ret = (clients, height, none) :=
  QueryAllClientStates_inv pkg cliCtx page limit w hok

/-- C6 as amended, at the demo node with page 1 and limit 2. -/
theorem QueryAllClientStates_returns_decoded_list_witness :
    (QueryAllClientStates demoPkg demoCtx 1 2 100).ret.2.2 = none ∧
    ∃ bz res height clients w1,
      demoCtx.Codec.MarshalJSON (demoPkg.NewQueryAllClientsParams 1 2) = .ok bz ∧
      demoCtx.QueryWithData 100 (allClientsRoute demoPkg) bz = (.ok (res, height), w1) ∧
      demoCtx.Codec.UnmarshalJSON res = .ok clients ∧
      (QueryAllClientStates demoPkg demoCtx 1 2 100).ret = (clients, height, none) :=
  ⟨by rfl, QueryAllClientStates_returns_decoded_list demoPkg demoCtx 1 2 100 (by rfl)⟩

/-- C7 fails at the demo node: with page 0 and limit 0, and with page -1 and
limit 5, `QueryAllClientStates` sends the query to the node and returns
without an error. -/
theorem nonpositive_pagination_forwarded :
    (QueryAllClientStates demoPkg demoCtx 0 0 100).calls =
      [.QueryWithData "custom/ibc/client/client_states" [0, 0]] ∧
    (QueryAllClientStates demoPkg demoCtx 0 0 100).ret.2.2 = none ∧
    (QueryAllClientStates demoPkg demoCtx (-1) 5 100).calls =
      [.QueryWithData "custom/ibc/client/client_states" [0, 5]] ∧
    (QueryAllClientStates demoPkg demoCtx (-1) 5 100).ret.2.2 = none := by
  refine ⟨rfl, rfl, rfl, rfl⟩

/-- C7 as amended: for every page and limit with `limit <= 0` or `page <= 0`,
`QueryAllClientStates` does not reject the arguments: when the params
`NewQueryAllClientsParams page limit` marshal to `bz` it issues exactly one
`QueryWithData` call, at the route `custom/ibc/QuerierRoute/QueryAllClients`
with `bz`, and returns what the node's answer decodes to (the node's error
as it is, a decode error wrapped); it issues no query only when the params
do not marshal, and then returns that error wrapped. -/
theorem QueryAllClientStates_forwards_nonpositive_pagination
    (pkg : ClientPkg CS ConS Params P SR CSR)
    (cliCtx : CLIContext W CS ConS Params P T R Val) (page limit : Int) (w : W)
    (_hbad : limit ≤ 0 ∨ page ≤ 0) :
    (∀ bz, cliCtx.Codec.MarshalJSON (pkg.NewQueryAllClientsParams page limit) = .ok bz →
      (QueryAllClientStates pkg cliCtx page limit w).calls =
        [.QueryWithData ("custom/ibc/" ++ pkg.QuerierRoute ++ "/" ++ pkg.QueryAllClients) bz] ∧
      (QueryAllClientStates pkg cliCtx page limit w).ret =
        match (cliCtx.QueryWithData w
            ("custom/ibc/" ++ pkg.QuerierRoute ++ "/" ++ pkg.QueryAllClients) bz).1 with
        | .error err => ([], 0, some err)
        | .ok (res, height) =>
          match cliCtx.Codec.UnmarshalJSON res with
          | .error err => ([], 0, some (.wrap "failed to unmarshal light clients: %w" err))
          | .ok clients => (clients, height, none)) ∧
    (∀ e, cliCtx.Codec.MarshalJSON (pkg.NewQueryAllClientsParams page limit) = .error e →
      (QueryAllClientStates pkg cliCtx page limit w).calls = [] ∧
      (QueryAllClientStates pkg cliCtx page limit w).ret =
        ([], 0, some (.wrap "failed to marshal query params: %w" e))) := by
  have hroute : allClientsRoute pkg =
      "custom/ibc/" ++ pkg.QuerierRoute ++ "/" ++ pkg.QueryAllClients := by
    simp only [allClientsRoute]
    rfl
  constructor
  · intro bz hm
    obtain ⟨hcalls, -, hret⟩ := QueryAllClientStates_of_marshal pkg cliCtx page limit w bz hm
    rw [hroute] at hcalls hret
    exact ⟨hcalls, hret⟩
  · intro e hm
    rw [QueryAllClientStates_marshal_err pkg cliCtx page limit w e hm]
    exact ⟨rfl, rfl⟩

/-- C7 as amended, at the demo node with page 0 and limit 0. -/
theorem QueryAllClientStates_forwards_nonpositive_pagination_witness :
    (QueryAllClientStates demoPkg demoCtx 0 0 100).calls =
      [.QueryWithData ("custom/ibc/" ++ demoPkg.QuerierRoute ++ "/" ++ demoPkg.QueryAllClients)
        [0, 0]] ∧
    (QueryAllClientStates demoPkg demoCtx 0 0 100).ret = ([[1], [2], [3]], 100, none) :=
  (QueryAllClientStates_forwards_nonpositive_pagination demoPkg demoCtx 0 0 100
    (Or.inl (by decide))).1 [0, 0] rfl

end ListClaims

end IBCClientUtils
